import Mathlib

/-!
Shallow embedding of the Aimi goal-dependency graph engine and LLM tool
orchestration core, translated from the repository sources:
  src/aimi/db/models/goal.py and src/aimi/db/models/enums.py (data model),
  src/aimi/repositories/goals.py (GoalRepository, the graph engine),
  src/aimi/llm/tools/goals.py (GoalTools, the LLM-callable wrappers),
  src/aimi/llm/tools/registry.py (LLMToolRegistry dispatch),
  src/aimi/services/conversation.py (ConversationOrchestrator).

Database rows become entries of an explicit in-memory store, UUID keys
become natural numbers, and async session methods become state-passing
functions. Python exceptions are modelled with Except; a raised database
constraint violation surfaces as an Except.error that the tool layer
converts to a structured error mapping, exactly as the try/except blocks
in the source do. Timestamps, logging, ordering of query results and the
limit/offset pagination parameters are not modelled: no claim observes
them.
-/

namespace Aimi

/-- GoalStatus enumeration from src/aimi/db/models/enums.py. -/
inductive GoalStatus where
  | todo
  | blocked
  | done
  | canceled
deriving DecidableEq, Repr

/-- String value of a GoalStatus member, as stored in the database column. -/
def GoalStatus.value : GoalStatus → String
  | .todo => "todo"
  | .blocked => "blocked"
  | .done => "done"
  | .canceled => "canceled"

/-- Python GoalStatus(status) constructor: returns none where Python raises ValueError. -/
def GoalStatus.ofString? (s : String) : Option GoalStatus :=
  if s == "todo" then some .todo
  else if s == "blocked" then some .blocked
  else if s == "done" then some .done
  else if s == "canceled" then some .canceled
  else none

/-- DependencyType enumeration from src/aimi/db/models/enums.py. -/
inductive DependencyType where
  | requires
  | enables
  | blocks
  | related
  | parallel
deriving DecidableEq, Repr

/-- String value of a DependencyType member. -/
def DependencyType.value : DependencyType → String
  | .requires => "requires"
  | .enables => "enables"
  | .blocks => "blocks"
  | .related => "related"
  | .parallel => "parallel"

/-- Python DependencyType(t) constructor: none where Python raises ValueError. -/
def DependencyType.ofString? (s : String) : Option DependencyType :=
  if s == "requires" then some .requires
  else if s == "enables" then some .enables
  else if s == "blocks" then some .blocks
  else if s == "related" then some .related
  else if s == "parallel" then some .parallel
  else none

/-- Goal row (src/aimi/db/models/goal.py). Only the columns the verified
operations read are carried: primary key, owner, title and status. -/
structure Goal where
  id : Nat
  user_id : Nat
  title : String
  status : GoalStatus
deriving DecidableEq, Repr

/-- GoalDependency row (src/aimi/db/models/goal.py): a directed edge
parent_goal_id to dependent_goal_id with a type, a strength and notes. -/
structure GoalDependency where
  id : Nat
  parent_goal_id : Nat
  dependent_goal_id : Nat
  dependency_type : DependencyType
  strength : Int
  notes : Option String
deriving DecidableEq, Repr

/-- The persistent store visible through one database session: the goals
table, the goal_dependencies table, and the next primary key handed to a
freshly inserted dependency row. -/
structure Store where
  goals : List Goal
  deps : List GoalDependency
  next_dep_id : Nat
deriving DecidableEq, Repr

namespace GoalRepository

/-- GoalRepository.get_by_id: fetch a goal by primary key. -/
def get_by_id (s : Store) (goal_id : Nat) : Option Goal :=
  s.goals.find? (fun g => g.id == goal_id)

/-- GoalRepository.get_goal_dependencies: all edges where this goal is the dependent. -/
def get_goal_dependencies (s : Store) (goal_id : Nat) : List GoalDependency :=
  s.deps.filter (fun d => d.dependent_goal_id == goal_id)

/-- GoalRepository.get_goal_dependents: all edges where this goal is the parent. -/
def get_goal_dependents (s : Store) (goal_id : Nat) : List GoalDependency :=
  s.deps.filter (fun d => d.parent_goal_id == goal_id)

/-- The field update performed by GoalRepository.update_goal(goal, status=st)
on the row with the given primary key. -/
def updFn (goal_id : Nat) (status : GoalStatus) (g : Goal) : Goal :=
  if g.id = goal_id then { g with status := status } else g

/-- GoalRepository.update_goal restricted to the status field, the only use
the graph engine makes of it. -/
def update_goal (s : Store) (goal_id : Nat) (status : GoalStatus) : Store :=
  { s with goals := s.goals.map (updFn goal_id status) }

/-- The should_block loop body of recalculate_goal_status_after_dependency_change:
true iff some edge with this goal as dependent has dependency_type requires
and a present parent goal whose status is neither done nor canceled. -/
def should_block (s : Store) (goal_id : Nat) : Bool :=
  (get_goal_dependencies s goal_id).any (fun dep =>
    dep.dependency_type == DependencyType.requires &&
      (match get_by_id s dep.parent_goal_id with
       | some parent_goal =>
         !(parent_goal.status == GoalStatus.done) && !(parent_goal.status == GoalStatus.canceled)
       | none => false))

/-- GoalRepository.recalculate_goal_status_after_dependency_change. -/
def recalculate_goal_status_after_dependency_change (s : Store) (goal_id : Nat) : Store :=
  match get_by_id s goal_id with
  | none => s
  | some goal =>
    if should_block s goal_id ∧ goal.status = GoalStatus.todo then
      update_goal s goal_id GoalStatus.blocked
    else if ¬(should_block s goal_id = true) ∧ goal.status = GoalStatus.blocked then
      update_goal s goal_id GoalStatus.todo
    else s

/-- GoalRepository.recalculate_dependent_goals_status: one hop over the
edges fetched up front, recomputing each requires dependent in turn. -/
def recalculate_dependent_goals_status (s : Store) (parent_goal_id : Nat) : Store :=
  match get_by_id s parent_goal_id with
  | none => s
  | some _ =>
    (get_goal_dependents s parent_goal_id).foldl
      (fun acc dependency =>
        if dependency.dependency_type = DependencyType.requires then
          match get_by_id acc dependency.dependent_goal_id with
          | some dependent_goal =>
            recalculate_goal_status_after_dependency_change acc dependent_goal.id
          | none => acc
        else acc)
      s

/-- Message of the IntegrityError raised by the no_self_dependency check
constraint of GoalDependency.__table_args__. -/
def selfDependencyMsg : String :=
  "IntegrityError: check constraint no_self_dependency violated"

/-- Message of the IntegrityError raised by the valid_strength check constraint. -/
def validStrengthMsg : String :=
  "IntegrityError: check constraint valid_strength violated"

/-- Message of the IntegrityError raised by the unique_goal_dependency constraint. -/
def uniqueDependencyMsg : String :=
  "IntegrityError: unique constraint unique_goal_dependency violated"

/-- GoalRepository.create_dependency: insert the edge (the flush enforces the
three table constraints of GoalDependency, raising modelled as Except.error),
then always recompute the dependent goal status. -/
def create_dependency (s : Store) (parent_goal_id dependent_goal_id : Nat)
    (dependency_type : DependencyType) (strength : Int) (notes : Option String) :
    Except String (Store × GoalDependency) :=
  let dependency : GoalDependency :=
    { id := s.next_dep_id
      parent_goal_id := parent_goal_id
      dependent_goal_id := dependent_goal_id
      dependency_type := dependency_type
      strength := strength
      notes := notes }
  if parent_goal_id = dependent_goal_id then
    Except.error selfDependencyMsg
  else if ¬(1 ≤ strength ∧ strength ≤ 5) then
    Except.error validStrengthMsg
  else if s.deps.any (fun d =>
      d.parent_goal_id == parent_goal_id && d.dependent_goal_id == dependent_goal_id) then
    Except.error uniqueDependencyMsg
  else
    let s1 : Store :=
      { s with deps := s.deps ++ [dependency], next_dep_id := s.next_dep_id + 1 }
    Except.ok (recalculate_goal_status_after_dependency_change s1 dependent_goal_id, dependency)

/-- GoalRepository.delete_dependency: remove the edge, then recompute the
former dependent goal status. -/
def delete_dependency (s : Store) (dependency : GoalDependency) : Store :=
  let s1 : Store := { s with deps := s.deps.filter (fun d => !(d.id == dependency.id)) }
  recalculate_goal_status_after_dependency_change s1 dependency.dependent_goal_id

/-- Argument passed for the status filter of get_user_goals: either a
GoalStatus enum member or a plain Python string. -/
inductive StatusArg where
  | enumArg (status : GoalStatus)
  | strArg (value : String)
deriving DecidableEq, Repr

/-- Python truthiness of a status argument: enum members are truthy, a
string is truthy iff nonempty. -/
def StatusArg.truthy : StatusArg → Bool
  | .enumArg _ => true
  | .strArg v => !(v == "")

/-- Attribute access arg.value: succeeds on an enum member, raises
AttributeError on a plain string. -/
def StatusArg.valueAttr : StatusArg → Except String String
  | .enumArg st => Except.ok st.value
  | .strArg _ => Except.error "AttributeError: str object has no attribute value"

/-- The status_values list built by the statuses branch of get_user_goals:
hasattr(s, value) keeps enum members via .value and strings as they are. -/
def statusArgValues (statuses : List StatusArg) : List String :=
  statuses.map (fun a =>
    match a with
    | StatusArg.enumArg st => st.value
    | StatusArg.strArg v => v)

/-- GoalRepository.get_user_goals. The ordering clause and the limit/offset
pagination of the query are not modelled. The status branch performs the
unconditional status.value attribute access of the source, which raises on
a plain string argument. -/
def get_user_goals (s : Store) (user_id : Nat) (status : Option StatusArg)
    (statuses : Option (List StatusArg)) : Except String (List Goal) :=
  let base := s.goals.filter (fun g => g.user_id == user_id)
  let statusTruthy :=
    match status with
    | some a => a.truthy
    | none => false
  let statusesTruthy :=
    match statuses with
    | some l => !l.isEmpty
    | none => false
  if statusTruthy then
    match status with
    | some arg =>
      match arg.valueAttr with
      | Except.ok v => Except.ok (base.filter (fun g => g.status.value == v))
      | Except.error e => Except.error e
    | none => Except.ok base
  else if statusesTruthy then
    match statuses with
    | some l => Except.ok (base.filter (fun g => (statusArgValues l).contains g.status.value))
    | none => Except.ok base
  else
    Except.ok base

end GoalRepository

/-- Status of the row with the given primary key, the observable the
graph-engine claims speak about. -/
def statusOf (s : Store) (goal_id : Nat) : Option GoalStatus :=
  (GoalRepository.get_by_id s goal_id).map Goal.status

/-- Result mapping returned by every tool function (src/aimi/llm/tools):
either a single error string key, or the domain fields of the success
dictionary rendered as string key/value pairs. -/
inductive ToolResult where
  | error (message : String)
  | ok (fields : List (String × String))
deriving DecidableEq, Repr

namespace GoalTools

/-- GoalTools.update_goal_status (src/aimi/llm/tools/goals.py). The user_id
argument is the self.user_id the tool object was constructed with; goal_id
stands for an already well-formed UUID string. -/
def update_goal_status (s : Store) (user_id : Nat) (goal_id : Nat) (status : String) :
    Store × ToolResult :=
  match GoalRepository.get_by_id s goal_id with
  | none =>
    (s, ToolResult.error ("Goal " ++ toString goal_id ++ " not found or not owned by user"))
  | some goal =>
    if goal.user_id ≠ user_id then
      (s, ToolResult.error ("Goal " ++ toString goal_id ++ " not found or not owned by user"))
    else
      match GoalStatus.ofString? status with
      | none =>
        (s, ToolResult.error ("Invalid status: " ++ status ++
          ". Must be one of [todo, blocked, done, canceled]"))
      | some status_enum =>
        let s1 := GoalRepository.update_goal s goal.id status_enum
        let s2 :=
          if status = "done" ∨ status = "canceled" then
            GoalRepository.recalculate_dependent_goals_status s1 goal.id
          else if status = "todo" then
            GoalRepository.recalculate_goal_status_after_dependency_change s1 goal.id
          else s1
        let status_text :=
          if status = "done" then "completed"
          else if status = "canceled" then "canceled"
          else status
        (s2, ToolResult.ok
          [("goal_id", toString goal.id),
           ("title", goal.title),
           ("status", status),
           ("success_message", "Updated goal " ++ goal.title ++ " status to " ++ status_text)])

/-- GoalTools.create_goal_dependency. Validation order follows the source:
dependency type parse, strength clamp to [1, 5], parent ownership, dependent
ownership, then the repository insert whose constraint violation is caught,
rolled back and reported as a structured error. -/
def create_goal_dependency (s : Store) (user_id : Nat)
    (parent_goal_id dependent_goal_id : Nat) (dependency_type : String) (strength : Int) :
    Store × ToolResult :=
  match DependencyType.ofString? dependency_type with
  | none =>
    (s, ToolResult.error ("Invalid dependency_type: " ++ dependency_type ++
      ". Must be one of [requires, enables, blocks, related, parallel]"))
  | some dependency_type_enum =>
    let strength := max 1 (min 5 strength)
    match GoalRepository.get_by_id s parent_goal_id with
    | none =>
      (s, ToolResult.error ("Parent goal " ++ toString parent_goal_id ++
        " not found or not owned by user"))
    | some parent_goal =>
      if parent_goal.user_id ≠ user_id then
        (s, ToolResult.error ("Parent goal " ++ toString parent_goal_id ++
          " not found or not owned by user"))
      else
        match GoalRepository.get_by_id s dependent_goal_id with
        | none =>
          (s, ToolResult.error ("Dependent goal " ++ toString dependent_goal_id ++
            " not found or not owned by user"))
        | some dependent_goal =>
          if dependent_goal.user_id ≠ user_id then
            (s, ToolResult.error ("Dependent goal " ++ toString dependent_goal_id ++
              " not found or not owned by user"))
          else
            match GoalRepository.create_dependency s parent_goal_id dependent_goal_id
                dependency_type_enum strength none with
            | Except.error e =>
              (s, ToolResult.error ("Failed to create goal dependency: " ++ e))
            | Except.ok (s1, dependency) =>
              (s1, ToolResult.ok
                [("dependency_id", toString dependency.id),
                 ("parent_goal_id", toString parent_goal_id),
                 ("parent_goal_title", parent_goal.title),
                 ("dependent_goal_id", toString dependent_goal_id),
                 ("dependent_goal_title", dependent_goal.title),
                 ("dependency_type", dependency_type),
                 ("strength", toString strength),
                 ("success_message", "Created dependency: " ++ dependent_goal.title ++
                   " " ++ dependency_type ++ " " ++ parent_goal.title)])

/-- GoalTools.get_available_goals: passes the plain string value of
GoalStatus.TODO as the status filter of get_user_goals; the exception the
repository raises on it is caught and returned as a structured error. The
success branch renders only the goal count: it is proved unreachable. -/
def get_available_goals (s : Store) (user_id : Nat) : Store × ToolResult :=
  match GoalRepository.get_user_goals s user_id
      (some (GoalRepository.StatusArg.strArg GoalStatus.todo.value)) none with
  | Except.error e =>
    (s, ToolResult.error ("Failed to get available goals: " ++ e))
  | Except.ok goals =>
    (s, ToolResult.ok [("total", toString goals.length)])

end GoalTools

/-- One JSON argument value handed to a tool call. -/
inductive ArgValue where
  | str (value : String)
  | int (value : Int)
  | boolean (value : Bool)
  | null
deriving DecidableEq, Repr

/-- The keyword-argument dictionary applied to a tool function. -/
abbrev ArgMap := List (String × ArgValue)

/-- A bound tool callable as the registry stores it: keyword arguments in,
updated session state and structured result mapping out. -/
abbrev ToolFn := ArgMap → Store → Store × ToolResult

/-- Arguments field of one LLM function call: either already-parsed
structured data, or a JSON string whose parse either yields an argument
dictionary or fails (json.loads raising JSONDecodeError). -/
inductive CallArguments where
  | parsed (args : ArgMap)
  | rawJson (parse_result : Option ArgMap)
deriving DecidableEq, Repr

/-- One function call requested by the model. -/
structure FunctionCall where
  name : String
  arguments : CallArguments
deriving DecidableEq, Repr

/-- One entry of the results list built by process_function_calls: the
per-call invalid JSON error dictionary, or the function/result pair. -/
inductive CallOutcome where
  | invalid_json_arguments (function : String)
  | result (function : String) (result : ToolResult)
deriving DecidableEq, Repr

/-- LLMToolRegistry (src/aimi/llm/tools/registry.py): the name-to-schema and
name-to-callable tables built by _register_tools. Schemas are carried as
plain strings, the model never inspects them. -/
structure LLMToolRegistry where
  tools : List (String × String)
  functions : List (String × ToolFn)

/-- LLMToolRegistry.get_tool_schemas. -/
def LLMToolRegistry.get_tool_schemas (reg : LLMToolRegistry) : List String :=
  reg.tools.map (fun p => p.2)

/-- LLMToolRegistry.get_function_names. -/
def LLMToolRegistry.get_function_names (reg : LLMToolRegistry) : List String :=
  reg.functions.map (fun p => p.1)

/-- Lookup of self._functions[function_name]. -/
def LLMToolRegistry.lookup (reg : LLMToolRegistry) (function_name : String) : Option ToolFn :=
  (reg.functions.find? (fun p => p.1 == function_name)).map (fun p => p.2)

/-- LLMToolRegistry.call_function: an unregistered name yields the structured
unknown-function error; a registered callable is invoked on the arguments. -/
def LLMToolRegistry.call_function (reg : LLMToolRegistry) (s : Store)
    (function_name : String) (arguments : ArgMap) : Store × ToolResult :=
  match reg.lookup function_name with
  | none => (s, ToolResult.error ("Unknown function: " ++ function_name))
  | some f => f arguments s

/-- LLMToolRegistry.process_function_calls: sequential dispatch accumulating
one outcome per call; string arguments are parsed first and a malformed
JSON string is reported per call without dispatching it. -/
def LLMToolRegistry.process_function_calls (reg : LLMToolRegistry) (s : Store)
    (function_calls : List FunctionCall) : Store × List CallOutcome :=
  function_calls.foldl
    (fun acc call =>
      match call.arguments with
      | CallArguments.rawJson none =>
        (acc.1, acc.2 ++ [CallOutcome.invalid_json_arguments call.name])
      | CallArguments.rawJson (some arguments) =>
        let r := reg.call_function acc.1 call.name arguments
        (r.1, acc.2 ++ [CallOutcome.result call.name r.2])
      | CallArguments.parsed arguments =>
        let r := reg.call_function acc.1 call.name arguments
        (r.1, acc.2 ++ [CallOutcome.result call.name r.2]))
    (s, [])

/-- Chat message data structure from src/aimi/llm/client.py. -/
structure ChatMessage where
  role : String
  content : String
deriving DecidableEq, Repr

/-- Rendering of SYSTEM_PROMPT from src/aimi/llm/prompts.py, abridged to its
identity line: no verified operation inspects the prompt text. -/
def SYSTEM_PROMPT : String :=
  "You are Aimi, a personal AI assistant focused on helping users achieve their goals, track their mental wellbeing, and manage their schedule effectively."

/-- The intent-analyzer system prompt of _analyze_for_entities, abridged. -/
def ANALYSIS_SYSTEM_MESSAGE : String :=
  "You are an intent analyzer. Look at this conversation and determine if the user is expressing a new goal, a task, or an event, and respond with JSON suggestions."

/-- First-pass model response: content plus the requested tool calls, as
returned by LLMClient.generate_with_tools. -/
structure LLMResponse where
  content : String
  tool_calls : List FunctionCall

/-- Behaviour of the underlying LLM client: the two call shapes the
orchestrator uses. An Except.error models the call raising. The Boolean
records whether hasattr(client, generate_with_tools) holds. -/
structure LLMClient where
  has_generate_with_tools : Bool
  generate_with_tools : List ChatMessage → List String → Except String LLMResponse
  generate : List ChatMessage → Except String String

/-- ConversationOrchestrator._build_enhanced_context: one system message,
the last twenty history messages, then the new user message. -/
def build_enhanced_context (messages : List ChatMessage) (user_message : String) :
    List ChatMessage :=
  let system_content := SYSTEM_PROMPT ++
    "\n\nYou can help users create and organize their goals, manage events, and track their mental state."
  let enhanced_context := [ChatMessage.mk "system" system_content]
  let recent_messages :=
    if messages.length > 20 then messages.drop (messages.length - 20) else messages
  enhanced_context ++ recent_messages ++ [ChatMessage.mk "user" user_message]

/-- Stand-in for json.dumps of one tool result inside the intermediate
assistant message. -/
def renderToolResult : ToolResult → String
  | ToolResult.error m => "error: " ++ m
  | ToolResult.ok fields =>
    String.intercalate ", " (fields.map (fun p => p.1 ++ ": " ++ p.2))

/-- Stand-in for json.dumps of one call outcome. -/
def renderOutcome : CallOutcome → String
  | CallOutcome.invalid_json_arguments f => "function: " ++ f ++ ", error: Invalid JSON arguments"
  | CallOutcome.result f r => "function: " ++ f ++ ", result: " ++ renderToolResult r

/-- Stand-in for json.dumps of the tool results list. -/
def renderOutcomes (outcomes : List CallOutcome) : String :=
  String.intercalate "\n" (outcomes.map renderOutcome)

/-- The followup_context built inside _generate_with_tools once tool results
exist: original context, the assistant message embedding the serialized tool
results, and the fixed follow-up user instruction. -/
def followup_context_of (reg : LLMToolRegistry) (context : List ChatMessage)
    (s : Store) (response : LLMResponse) : List ChatMessage :=
  context ++
    [ChatMessage.mk "assistant" (response.content ++ "\n\nTool results: " ++
      renderOutcomes (reg.process_function_calls s response.tool_calls).2),
     ChatMessage.mk "user" "Please provide a natural response based on the tool results above."]

/-- Intermediate result dictionary assembled by _generate_with_tools and
_generate_with_analysis. -/
structure GenerationResult where
  content : String
  tool_calls : List FunctionCall
  tool_results : List CallOutcome

/-- ConversationOrchestrator._generate_with_tools: first model call with the
tool schemas, sequential tool dispatch, then the second model call on the
augmented context. An Except.error is an exception propagating out of the
method into the caller of generate_response. -/
def generate_with_tools_step (client : LLMClient) (reg : LLMToolRegistry)
    (context : List ChatMessage) (s : Store) : Store × Except String GenerationResult :=
  let tool_schemas := reg.get_tool_schemas
  match client.generate_with_tools context tool_schemas with
  | Except.error e => (s, Except.error e)
  | Except.ok response =>
    if response.tool_calls.isEmpty then
      (s, Except.ok
        { content := response.content, tool_calls := response.tool_calls, tool_results := [] })
    else
      let pr := reg.process_function_calls s response.tool_calls
      if pr.2.isEmpty then
        (pr.1, Except.ok
          { content := response.content, tool_calls := response.tool_calls,
            tool_results := pr.2 })
      else
        match client.generate (followup_context_of reg context s response) with
        | Except.error e => (pr.1, Except.error e)
        | Except.ok followup_response =>
          (pr.1, Except.ok
            { content := followup_response, tool_calls := response.tool_calls,
              tool_results := pr.2 })

/-- ConversationOrchestrator._analyze_for_entities: its internal try/except
swallows a raising model call into an empty suggestions list; json_loads
stands for json.loads applied to the analyzer output. -/
def analyze_for_entities (client : LLMClient) (json_loads : String → Option ToolResult)
    (user_message assistant_response : String) : List CallOutcome :=
  let analysis_prompt :=
    [ChatMessage.mk "system" ANALYSIS_SYSTEM_MESSAGE,
     ChatMessage.mk "user" ("User said: " ++ user_message ++ "\nAssistant replied: " ++
       assistant_response)]
  match client.generate analysis_prompt with
  | Except.error _ => []
  | Except.ok analysis_result =>
    match json_loads analysis_result with
    | some suggestions => [CallOutcome.result "analysis" suggestions]
    | none => []

/-- ConversationOrchestrator._generate_with_analysis, the fallback when the
client lacks generate_with_tools. -/
def generate_with_analysis_step (client : LLMClient)
    (json_loads : String → Option ToolResult) (context : List ChatMessage) (s : Store) :
    Store × Except String GenerationResult :=
  match client.generate context with
  | Except.error e => (s, Except.error e)
  | Except.ok regular_response =>
    let last_content :=
      match context.getLast? with
      | some m => m.content
      | none => ""
    let analysis_results := analyze_for_entities client json_loads last_content regular_response
    (s, Except.ok
      { content := regular_response, tool_calls := [], tool_results := analysis_results })

/-- The response dictionary generate_response hands back to its caller. -/
structure OrchestratorResult where
  content : String
  tool_calls : List FunctionCall
  tool_results : List CallOutcome
  status : String
  error : Option String
deriving Repr

/-- The synthetic assistant message produced by the top-level except block
of generate_response. -/
def ERROR_CONTENT : String :=
  "I encountered an error while processing your request. Please try again."

/-- ConversationOrchestrator.generate_response: build context, run the tool
path or the analysis fallback, and convert any exception of either phase
into the synthetic error response instead of propagating it. -/
def generate_response (client : LLMClient) (reg : LLMToolRegistry)
    (json_loads : String → Option ToolResult) (s : Store)
    (messages : List ChatMessage) (user_message : String) : Store × OrchestratorResult :=
  let context := build_enhanced_context messages user_message
  let step :=
    if client.has_generate_with_tools then generate_with_tools_step client reg context s
    else generate_with_analysis_step client json_loads context s
  match step.2 with
  | Except.ok g =>
    (step.1,
      { content := g.content, tool_calls := g.tool_calls, tool_results := g.tool_results,
        status := "success", error := none })
  | Except.error e =>
    (step.1,
      { content := ERROR_CONTENT, tool_calls := [], tool_results := [],
        status := "error", error := some e })

/-- Spec-side transition table of step 4 to 6 of
recalculate_goal_status_after_dependency_change: block a todo goal when
should_block holds, unblock a blocked goal when it does not, and leave every
other status unchanged. -/
def newStatus (sb : Bool) (st : GoalStatus) : GoalStatus :=
  if sb ∧ st = GoalStatus.todo then GoalStatus.blocked
  else if ¬(sb = true) ∧ st = GoalStatus.blocked then GoalStatus.todo
  else st

/-- Spec-side reading of the should_block condition: some dependency edge
with this goal as dependent has dependency_type requires and a parent goal
present in the store whose status is neither done nor canceled. -/
def ShouldBlockSpec (s : Store) (goal_id : Nat) : Prop :=
  ∃ dep ∈ s.deps, dep.dependent_goal_id = goal_id ∧
    dep.dependency_type = DependencyType.requires ∧
    ∃ parent, GoalRepository.get_by_id s dep.parent_goal_id = some parent ∧
      parent.status ≠ GoalStatus.done ∧ parent.status ≠ GoalStatus.canceled

/-- Invariant relation of the automatic engine: any status an operation
changes moves from todo to blocked or from blocked to todo; in particular
done and canceled are never written. -/
def AutoTransOk (s t : Store) : Prop :=
  ∀ j, statusOf t j = statusOf s j ∨
    (statusOf s j = some GoalStatus.todo ∧ statusOf t j = some GoalStatus.blocked) ∨
    (statusOf s j = some GoalStatus.blocked ∧ statusOf t j = some GoalStatus.todo)

/-- Fixture: two goals of user 1 with no dependency edges. -/
def storeTwoTodo : Store :=
  { goals := [{ id := 1, user_id := 1, title := "Learn Python", status := GoalStatus.todo },
              { id := 2, user_id := 1, title := "Build project", status := GoalStatus.todo }]
    deps := []
    next_dep_id := 1 }

/-- Fixture: goal 2 requires goal 1 and is currently blocked. -/
def storeReqBlocked : Store :=
  { goals := [{ id := 1, user_id := 1, title := "Learn Python", status := GoalStatus.todo },
              { id := 2, user_id := 1, title := "Build project", status := GoalStatus.blocked }]
    deps := [{ id := 7, parent_goal_id := 1, dependent_goal_id := 2,
               dependency_type := DependencyType.requires, strength := 1, notes := none }]
    next_dep_id := 8 }

/-- Fixture: the blocked goal 2 requires only the done goal 1. -/
def storeReqDone : Store :=
  { goals := [{ id := 1, user_id := 1, title := "Learn Python", status := GoalStatus.done },
              { id := 2, user_id := 1, title := "Build project", status := GoalStatus.blocked }]
    deps := [{ id := 10, parent_goal_id := 1, dependent_goal_id := 2,
               dependency_type := DependencyType.requires, strength := 1, notes := none }]
    next_dep_id := 11 }

/-- The sole requires edge of goal 1 in the counterexample store below. -/
def cexEdge : GoalDependency :=
  { id := 10, parent_goal_id := 1, dependent_goal_id := 3,
    dependency_type := DependencyType.requires, strength := 1, notes := none }

/-- Counterexample fixture: goal 1 is done with the single requires
dependent 3, but goal 3 also requires the still-todo goal 2. -/
def cexStore : Store :=
  { goals := [{ id := 1, user_id := 1, title := "P", status := GoalStatus.done },
              { id := 2, user_id := 1, title := "Q", status := GoalStatus.todo },
              { id := 3, user_id := 1, title := "D", status := GoalStatus.blocked }]
    deps := [cexEdge,
             { id := 11, parent_goal_id := 2, dependent_goal_id := 3,
               dependency_type := DependencyType.requires, strength := 1, notes := none }]
    next_dep_id := 12 }

/-- Binding of GoalTools.update_goal_status the way the registry constructor
binds it for one user: keyword arguments are looked up in the applied
dictionary. -/
def update_goal_status_bound (user_id : Nat) : ToolFn := fun args s =>
  let goal_id :=
    match args.find? (fun p => p.1 == "goal_id") with
    | some (_, ArgValue.int i) => i.toNat
    | _ => 0
  let status :=
    match args.find? (fun p => p.1 == "status") with
    | some (_, ArgValue.str v) => v
    | _ => ""
  GoalTools.update_goal_status s user_id goal_id status

/-- A registry holding one registered tool, as _register_tool produces. -/
def exampleRegistry : LLMToolRegistry :=
  { tools := [("update_goal_status", "schema: update_goal_status")]
    functions := [("update_goal_status", update_goal_status_bound 1)] }

/-- A registry with no registered tools. -/
def emptyRegistry : LLMToolRegistry :=
  { tools := [], functions := [] }

/-- A client whose every call raises, for exercising the error path. -/
def raisingClient : LLMClient :=
  { has_generate_with_tools := true
    generate_with_tools := fun _ _ => Except.error "OpenAI API connection error"
    generate := fun _ => Except.error "OpenAI API connection error" }

/-- A client whose first call requests one tool call and whose second call
raises, for exercising the follow-up error path. -/
def followupRaisingClient : LLMClient :=
  { has_generate_with_tools := true
    generate_with_tools := fun _ _ =>
      Except.ok { content := "",
                  tool_calls := [{ name := "update_goal_status",
                                   arguments := CallArguments.parsed [] }] }
    generate := fun _ => Except.error "OpenAI API timeout" }

/-- Stand-in for json.loads that never recognises the analyzer output. -/
def noSuggestionsParse : String → Option ToolResult := fun _ => none

theorem updFn_id (goal_id : Nat) (st : GoalStatus) (g : Goal) :
    (GoalRepository.updFn goal_id st g).id = g.id := by
  unfold GoalRepository.updFn
  split <;> rfl

theorem get_by_id_some_id {s : Store} {j : Nat} {g : Goal}
    (h : GoalRepository.get_by_id s j = some g) : g.id = j := by
  have := List.find?_some h
  simpa using this

theorem get_by_id_update_goal (s : Store) (i : Nat) (st : GoalStatus) (j : Nat) :
    GoalRepository.get_by_id (GoalRepository.update_goal s i st) j =
      (GoalRepository.get_by_id s j).map (GoalRepository.updFn i st) := by
  show (s.goals.map (GoalRepository.updFn i st)).find? (fun g => g.id == j) =
    (s.goals.find? (fun g => g.id == j)).map (GoalRepository.updFn i st)
  rw [List.find?_map]
  have hpred : ((fun g : Goal => g.id == j) ∘ GoalRepository.updFn i st) =
      (fun g : Goal => g.id == j) := by
    funext g
    simp [Function.comp, updFn_id]
  rw [hpred]

theorem get_by_id_update_other {s : Store} {i j : Nat} (h : j ≠ i) (st : GoalStatus) :
    GoalRepository.get_by_id (GoalRepository.update_goal s i st) j =
      GoalRepository.get_by_id s j := by
  rw [get_by_id_update_goal]
  cases hg : GoalRepository.get_by_id s j with
  | none => rfl
  | some g =>
    have hid := get_by_id_some_id hg
    simp [GoalRepository.updFn, hid, h]

theorem get_by_id_update_self {s : Store} {i : Nat} {g : Goal}
    (h : GoalRepository.get_by_id s i = some g) (st : GoalStatus) :
    GoalRepository.get_by_id (GoalRepository.update_goal s i st) i =
      some { g with status := st } := by
  rw [get_by_id_update_goal, h]
  have hid := get_by_id_some_id h
  simp [GoalRepository.updFn, hid]

theorem statusOf_update_self {s : Store} {i : Nat} {g : Goal}
    (h : GoalRepository.get_by_id s i = some g) (st : GoalStatus) :
    statusOf (GoalRepository.update_goal s i st) i = some st := by
  unfold statusOf
  rw [get_by_id_update_self h]
  rfl

theorem update_goal_deps (s : Store) (i : Nat) (st : GoalStatus) :
    (GoalRepository.update_goal s i st).deps = s.deps := rfl

theorem should_block_iff (s : Store) (goal_id : Nat) :
    GoalRepository.should_block s goal_id = true ↔ ShouldBlockSpec s goal_id := by
  unfold GoalRepository.should_block ShouldBlockSpec GoalRepository.get_goal_dependencies
  rw [List.any_eq_true]
  constructor
  · rintro ⟨dep, hmem, hb⟩
    rw [List.mem_filter] at hmem
    obtain ⟨hmem, hdg⟩ := hmem
    rw [Bool.and_eq_true] at hb
    obtain ⟨hty, hpar⟩ := hb
    refine ⟨dep, hmem, by simpa using hdg, by simpa using hty, ?_⟩
    cases hpg : GoalRepository.get_by_id s dep.parent_goal_id with
    | none => rw [hpg] at hpar; simp at hpar
    | some parent =>
      rw [hpg] at hpar
      refine ⟨parent, rfl, ?_, ?_⟩ <;> · simp at hpar; simp [hpar]
  · rintro ⟨dep, hmem, hdg, hty, parent, hpg, hdone, hcanc⟩
    refine ⟨dep, ?_, ?_⟩
    · rw [List.mem_filter]
      exact ⟨hmem, by simpa using hdg⟩
    · rw [Bool.and_eq_true]
      refine ⟨by simpa using hty, ?_⟩
      rw [hpg]
      simp [hdone, hcanc]

theorem recalc_absent {s : Store} {goal_id : Nat}
    (h : GoalRepository.get_by_id s goal_id = none) :
    GoalRepository.recalculate_goal_status_after_dependency_change s goal_id = s := by
  unfold GoalRepository.recalculate_goal_status_after_dependency_change
  rw [h]

theorem statusOf_recalc_self {s : Store} {goal_id : Nat} {g : Goal}
    (h : GoalRepository.get_by_id s goal_id = some g) :
    statusOf (GoalRepository.recalculate_goal_status_after_dependency_change s goal_id)
        goal_id =
      some (newStatus (GoalRepository.should_block s goal_id) g.status) := by
  have hst : statusOf s goal_id = some g.status := by
    unfold statusOf; rw [h]; rfl
  simp only [GoalRepository.recalculate_goal_status_after_dependency_change, h, newStatus]
  split_ifs with h1 h2
  · exact statusOf_update_self h GoalStatus.blocked
  · exact statusOf_update_self h GoalStatus.todo
  · exact hst

theorem get_by_id_recalc_other {s : Store} {goal_id j : Nat} (h : j ≠ goal_id) :
    GoalRepository.get_by_id
        (GoalRepository.recalculate_goal_status_after_dependency_change s goal_id) j =
      GoalRepository.get_by_id s j := by
  cases hg : GoalRepository.get_by_id s goal_id with
  | none => rw [recalc_absent hg]
  | some g =>
    simp only [GoalRepository.recalculate_goal_status_after_dependency_change, hg]
    split_ifs with h1 h2
    · exact get_by_id_update_other h GoalStatus.blocked
    · exact get_by_id_update_other h GoalStatus.todo
    · rfl

theorem recalc_deps (s : Store) (goal_id : Nat) :
    (GoalRepository.recalculate_goal_status_after_dependency_change s goal_id).deps =
      s.deps := by
  cases hg : GoalRepository.get_by_id s goal_id with
  | none => rw [recalc_absent hg]
  | some g =>
    simp only [GoalRepository.recalculate_goal_status_after_dependency_change, hg]
    split_ifs <;> rfl

theorem recalc_next_dep_id (s : Store) (goal_id : Nat) :
    (GoalRepository.recalculate_goal_status_after_dependency_change s goal_id).next_dep_id =
      s.next_dep_id := by
  cases hg : GoalRepository.get_by_id s goal_id with
  | none => rw [recalc_absent hg]
  | some g =>
    simp only [GoalRepository.recalculate_goal_status_after_dependency_change, hg]
    split_ifs <;> rfl

theorem get_by_id_recalc_shape {s : Store} {goal_id j : Nat} {g : Goal}
    (h : GoalRepository.get_by_id s j = some g) :
    ∃ g2, GoalRepository.get_by_id
        (GoalRepository.recalculate_goal_status_after_dependency_change s goal_id) j =
          some g2 ∧
      g2.id = g.id ∧ g2.user_id = g.user_id ∧ g2.title = g.title := by
  cases hg : GoalRepository.get_by_id s goal_id with
  | none =>
    rw [recalc_absent hg]
    exact ⟨g, h, rfl, rfl, rfl⟩
  | some g0 =>
    have hupd : ∀ st : GoalStatus, ∃ g2,
        GoalRepository.get_by_id (GoalRepository.update_goal s goal_id st) j = some g2 ∧
          g2.id = g.id ∧ g2.user_id = g.user_id ∧ g2.title = g.title := by
      intro st
      rw [get_by_id_update_goal, h]
      unfold GoalRepository.updFn
      by_cases hij : g.id = goal_id
      · exact ⟨{ g with status := st }, by simp [hij], rfl, rfl, rfl⟩
      · exact ⟨g, by simp [hij], rfl, rfl, rfl⟩
    simp only [GoalRepository.recalculate_goal_status_after_dependency_change, hg]
    split_ifs with h1 h2
    · exact hupd GoalStatus.blocked
    · exact hupd GoalStatus.todo
    · exact ⟨g, h, rfl, rfl, rfl⟩

theorem recalc_fold_untouched (l : List GoalDependency) (acc : Store) (j : Nat)
    (hl : ∀ dep ∈ l, dep.dependency_type = DependencyType.requires →
      dep.dependent_goal_id ≠ j) :
    GoalRepository.get_by_id
        (l.foldl
          (fun acc dependency =>
            if dependency.dependency_type = DependencyType.requires then
              match GoalRepository.get_by_id acc dependency.dependent_goal_id with
              | some dependent_goal =>
                GoalRepository.recalculate_goal_status_after_dependency_change acc
                  dependent_goal.id
              | none => acc
            else acc)
          acc) j =
      GoalRepository.get_by_id acc j := by
  induction l generalizing acc with
  | nil => rfl
  | cons dep l ih =>
    rw [List.foldl_cons]
    have hstep : GoalRepository.get_by_id
        (if dep.dependency_type = DependencyType.requires then
          match GoalRepository.get_by_id acc dep.dependent_goal_id with
          | some dependent_goal =>
            GoalRepository.recalculate_goal_status_after_dependency_change acc
              dependent_goal.id
          | none => acc
        else acc) j = GoalRepository.get_by_id acc j := by
      by_cases hreq : dep.dependency_type = DependencyType.requires
      · rw [if_pos hreq]
        cases hd : GoalRepository.get_by_id acc dep.dependent_goal_id with
        | none => rfl
        | some dg =>
          have hid := get_by_id_some_id hd
          have hne : j ≠ dg.id := by
            rw [hid]
            exact fun he => hl dep (List.mem_cons_self dep l) hreq he.symm
          exact get_by_id_recalc_other hne
      · rw [if_neg hreq]
    rw [ih _ (fun d hd => hl d (List.mem_cons_of_mem _ hd)), hstep]

theorem recalc_fold_deps (l : List GoalDependency) (acc : Store) :
    (l.foldl
        (fun acc dependency =>
          if dependency.dependency_type = DependencyType.requires then
            match GoalRepository.get_by_id acc dependency.dependent_goal_id with
            | some dependent_goal =>
              GoalRepository.recalculate_goal_status_after_dependency_change acc
                dependent_goal.id
            | none => acc
          else acc)
        acc).deps = acc.deps := by
  induction l generalizing acc with
  | nil => rfl
  | cons dep l ih =>
    rw [List.foldl_cons, ih]
    by_cases hreq : dep.dependency_type = DependencyType.requires
    · rw [if_pos hreq]
      cases hd : GoalRepository.get_by_id acc dep.dependent_goal_id with
      | none => rfl
      | some dg => exact recalc_deps acc dg.id
    · rw [if_neg hreq]

theorem recalc_dependents_absent {s : Store} {parent_goal_id : Nat}
    (h : GoalRepository.get_by_id s parent_goal_id = none) :
    GoalRepository.recalculate_dependent_goals_status s parent_goal_id = s := by
  unfold GoalRepository.recalculate_dependent_goals_status
  rw [h]

theorem get_by_id_recalc_dependents_untouched {s : Store} {parent_goal_id j : Nat}
    (hl : ∀ dep ∈ s.deps, dep.parent_goal_id = parent_goal_id →
      dep.dependency_type = DependencyType.requires → dep.dependent_goal_id ≠ j) :
    GoalRepository.get_by_id
        (GoalRepository.recalculate_dependent_goals_status s parent_goal_id) j =
      GoalRepository.get_by_id s j := by
  cases hg : GoalRepository.get_by_id s parent_goal_id with
  | none => rw [recalc_dependents_absent hg]
  | some p =>
    simp only [GoalRepository.recalculate_dependent_goals_status, hg]
    apply recalc_fold_untouched
    intro dep hd hreq
    rw [GoalRepository.get_goal_dependents, List.mem_filter] at hd
    exact hl dep hd.1 (by simpa using hd.2) hreq

theorem auto_refl (s : Store) : AutoTransOk s s := fun _ => Or.inl rfl

theorem auto_trans {s t u : Store} (h1 : AutoTransOk s t) (h2 : AutoTransOk t u) :
    AutoTransOk s u := by
  intro j
  rcases h1 j with he1 | ⟨ha1, hb1⟩ | ⟨ha1, hb1⟩ <;>
    rcases h2 j with he2 | ⟨ha2, hb2⟩ | ⟨ha2, hb2⟩ <;>
      simp_all

theorem auto_recalc (s : Store) (goal_id : Nat) :
    AutoTransOk s (GoalRepository.recalculate_goal_status_after_dependency_change s goal_id) := by
  cases hg : GoalRepository.get_by_id s goal_id with
  | none => rw [recalc_absent hg]; exact auto_refl s
  | some g =>
    have hst : statusOf s goal_id = some g.status := by
      unfold statusOf; rw [hg]; rfl
    simp only [GoalRepository.recalculate_goal_status_after_dependency_change, hg]
    split_ifs with h1 h2
    · intro j
      by_cases hj : j = goal_id
      · subst hj
        refine Or.inr (Or.inl ⟨?_, ?_⟩)
        · rw [hst, h1.2]
        · exact statusOf_update_self hg GoalStatus.blocked
      · exact Or.inl (by unfold statusOf; rw [get_by_id_update_other hj])
    · intro j
      by_cases hj : j = goal_id
      · subst hj
        refine Or.inr (Or.inr ⟨?_, ?_⟩)
        · rw [hst, h2.2]
        · exact statusOf_update_self hg GoalStatus.todo
      · exact Or.inl (by unfold statusOf; rw [get_by_id_update_other hj])
    · exact auto_refl s

theorem auto_recalc_fold (l : List GoalDependency) (acc : Store) :
    AutoTransOk acc
      (l.foldl
        (fun acc dependency =>
          if dependency.dependency_type = DependencyType.requires then
            match GoalRepository.get_by_id acc dependency.dependent_goal_id with
            | some dependent_goal =>
              GoalRepository.recalculate_goal_status_after_dependency_change acc
                dependent_goal.id
            | none => acc
          else acc)
        acc) := by
  induction l generalizing acc with
  | nil => exact auto_refl acc
  | cons dep l ih =>
    rw [List.foldl_cons]
    refine auto_trans ?_ (ih _)
    by_cases hreq : dep.dependency_type = DependencyType.requires
    · rw [if_pos hreq]
      cases hd : GoalRepository.get_by_id acc dep.dependent_goal_id with
      | none => exact auto_refl acc
      | some dg => exact auto_recalc acc dg.id
    · rw [if_neg hreq]
      exact auto_refl acc

theorem auto_recalc_dependents (s : Store) (parent_goal_id : Nat) :
    AutoTransOk s (GoalRepository.recalculate_dependent_goals_status s parent_goal_id) := by
  cases hg : GoalRepository.get_by_id s parent_goal_id with
  | none => rw [recalc_dependents_absent hg]; exact auto_refl s
  | some p =>
    simp only [GoalRepository.recalculate_dependent_goals_status, hg]
    exact auto_recalc_fold _ s

theorem statusOf_add_deps (s : Store) (l : List GoalDependency) (n : Nat) (j : Nat) :
    statusOf { s with deps := l, next_dep_id := n } j = statusOf s j := rfl

/-- C1: for every goal in the store,
recalculate_goal_status_after_dependency_change computes should_block as true
iff some edge with this goal as dependent has dependency_type requires and a
parent goal whose status is neither done nor canceled; the goal status then
follows the todo-to-blocked and blocked-to-todo transition table and is
otherwise unchanged, so a done or canceled goal is never modified; on an
absent goal the call is a no-op. -/
theorem claim_recalculate_goal_status_spec (s : Store) (goal_id : Nat) :
    (GoalRepository.get_by_id s goal_id = none →
      GoalRepository.recalculate_goal_status_after_dependency_change s goal_id = s) ∧
    (GoalRepository.should_block s goal_id = true ↔ ShouldBlockSpec s goal_id) ∧
    (∀ g, GoalRepository.get_by_id s goal_id = some g →
      statusOf (GoalRepository.recalculate_goal_status_after_dependency_change s goal_id)
          goal_id =
        some (newStatus (GoalRepository.should_block s goal_id) g.status) ∧
      (g.status = GoalStatus.done ∨ g.status = GoalStatus.canceled →
        statusOf (GoalRepository.recalculate_goal_status_after_dependency_change s goal_id)
            goal_id = some g.status)) := by
  refine ⟨fun h => recalc_absent h, should_block_iff s goal_id,
    fun g hg => ⟨statusOf_recalc_self hg, fun hterm => ?_⟩⟩
  rw [statusOf_recalc_self hg]
  rcases hterm with h | h <;> rw [h] <;>
    cases hsb : GoalRepository.should_block s goal_id <;> rfl

theorem claim_recalculate_goal_status_spec_witness :
    statusOf (GoalRepository.recalculate_goal_status_after_dependency_change storeReqBlocked 2)
        2 = some GoalStatus.blocked :=
  ((claim_recalculate_goal_status_spec storeReqBlocked 2).2.2
    { id := 2, user_id := 1, title := "Build project", status := GoalStatus.blocked } rfl).1

/-- C2 counterexample: in cexStore, goal 1 has the single requires dependent
goal 3 which is blocked, and goal 1 is done, yet
recalculate_dependent_goals_status leaves goal 3 blocked because goal 3 also
requires the still-todo goal 2 — refuting the claimed particular instance. -/
theorem claim_one_hop_counterexample :
    GoalRepository.get_goal_dependents cexStore 1 = [cexEdge] ∧
    cexEdge.dependency_type = DependencyType.requires ∧
    cexEdge.dependent_goal_id = 3 ∧
    statusOf cexStore 3 = some GoalStatus.blocked ∧
    statusOf cexStore 1 = some GoalStatus.done ∧
    statusOf (GoalRepository.recalculate_dependent_goals_status cexStore 1) 3 =
      some GoalStatus.blocked ∧
    statusOf (GoalRepository.recalculate_dependent_goals_status cexStore 1) 3 ≠
      some GoalStatus.todo :=
  ⟨rfl, rfl, rfl, rfl, rfl, rfl, by decide⟩

/-- C2 (amended): recalculate_dependent_goals_status is a no-op on an absent
parent, re-evaluates only the direct requires dependents of the parent (any
goal that is not such a dependent is untouched, so the call never cascades
beyond one hop), and if the parent has a single requires dependent D that is
blocked and no requires dependency of D is still unmet (in particular the
parent itself is done), the call results in D having status todo. -/
theorem claim_one_hop_amended (s : Store) (parent_goal_id j : Nat) :
    (GoalRepository.get_by_id s parent_goal_id = none →
      GoalRepository.recalculate_dependent_goals_status s parent_goal_id = s) ∧
    ((∀ dep ∈ s.deps, dep.parent_goal_id = parent_goal_id →
        dep.dependency_type = DependencyType.requires → dep.dependent_goal_id ≠ j) →
      GoalRepository.get_by_id
          (GoalRepository.recalculate_dependent_goals_status s parent_goal_id) j =
        GoalRepository.get_by_id s j) ∧
    (∀ e d p, GoalRepository.get_goal_dependents s parent_goal_id = [e] →
      e.dependency_type = DependencyType.requires →
      GoalRepository.get_by_id s parent_goal_id = some p →
      GoalRepository.get_by_id s e.dependent_goal_id = some d →
      d.status = GoalStatus.blocked →
      GoalRepository.should_block s e.dependent_goal_id = false →
      statusOf (GoalRepository.recalculate_dependent_goals_status s parent_goal_id)
          e.dependent_goal_id = some GoalStatus.todo) := by
  refine ⟨fun h => recalc_dependents_absent h,
    fun hl => get_by_id_recalc_dependents_untouched hl, ?_⟩
  intro e d p hdeps hreq hp hd hst hsb
  simp only [GoalRepository.recalculate_dependent_goals_status, hp, hdeps,
    List.foldl_cons, List.foldl_nil]
  rw [if_pos hreq]
  simp only [hd]
  rw [get_by_id_some_id hd, statusOf_recalc_self hd, hsb, hst]
  rfl

theorem claim_one_hop_amended_witness :
    statusOf (GoalRepository.recalculate_dependent_goals_status storeReqDone 1) 2 =
      some GoalStatus.todo :=
  (claim_one_hop_amended storeReqDone 1 0).2.2
    { id := 10, parent_goal_id := 1, dependent_goal_id := 2,
      dependency_type := DependencyType.requires, strength := 1, notes := none }
    { id := 2, user_id := 1, title := "Build project", status := GoalStatus.blocked }
    { id := 1, user_id := 1, title := "Learn Python", status := GoalStatus.done }
    rfl rfl rfl rfl rfl rfl

/-- C9: the get_available_goals tool never returns a goals list — for every
user and store its result is the structured error mapping, because the plain
string todo is passed as the status filter and the repository
unconditionally accesses its value attribute, raising AttributeError which
the handler converts into the error result. -/
theorem claim_get_available_goals_error (s : Store) (user_id : Nat) :
    GoalTools.get_available_goals s user_id =
      (s, ToolResult.error
        ("Failed to get available goals: AttributeError: str object has no attribute value")) :=
  rfl

/-- C10: the graph-engine operations only ever write the statuses blocked or
todo — every status either operation changes moves from todo to blocked or
from blocked to todo, so done and canceled are never introduced by the
automatic engine. -/
theorem claim_auto_transitions (s : Store) (goal_id parent_goal_id p d : Nat)
    (t : DependencyType) (k : Int) (n : Option String) (dep : GoalDependency) :
    AutoTransOk s (GoalRepository.recalculate_goal_status_after_dependency_change s goal_id) ∧
    AutoTransOk s (GoalRepository.recalculate_dependent_goals_status s parent_goal_id) ∧
    (∀ s1 e, GoalRepository.create_dependency s p d t k n = Except.ok (s1, e) →
      AutoTransOk s s1) ∧
    AutoTransOk s (GoalRepository.delete_dependency s dep) := by
  refine ⟨auto_recalc s goal_id, auto_recalc_dependents s parent_goal_id, ?_, ?_⟩
  · intro s1 e hok
    simp only [GoalRepository.create_dependency] at hok
    split_ifs at hok with h1 h2 h3
    injection hok with hok
    rw [Prod.mk.injEq] at hok
    obtain ⟨hs1, he⟩ := hok
    rw [← hs1]
    exact auto_trans (fun j => Or.inl rfl) (auto_recalc _ _)
  · unfold GoalRepository.delete_dependency
    exact auto_trans (fun j => Or.inl rfl) (auto_recalc _ _)

theorem claim_auto_transitions_witness :
    AutoTransOk storeTwoTodo
      (GoalRepository.recalculate_goal_status_after_dependency_change
        { storeTwoTodo with
          deps := [{ id := 1, parent_goal_id := 1, dependent_goal_id := 2,
                     dependency_type := DependencyType.requires, strength := 1,
                     notes := none }],
          next_dep_id := 2 } 2) :=
  (claim_auto_transitions storeTwoTodo 0 0 1 2 DependencyType.requires 1 none
    { id := 0, parent_goal_id := 0, dependent_goal_id := 0,
      dependency_type := DependencyType.requires, strength := 1, notes := none }).2.2.1
    _ _ rfl

theorem get_by_id_add_deps (s : Store) (l : List GoalDependency) (n : Nat) (j : Nat) :
    GoalRepository.get_by_id { s with deps := l, next_dep_id := n } j =
      GoalRepository.get_by_id s j := rfl

theorem shouldBlockSpec_append_nonreq {s : Store} {e : GoalDependency} {n : Nat} {d : Nat}
    (h : e.dependency_type ≠ DependencyType.requires) :
    ShouldBlockSpec { s with deps := s.deps ++ [e], next_dep_id := n } d ↔
      ShouldBlockSpec s d := by
  unfold ShouldBlockSpec
  constructor
  · rintro ⟨dep, hmem, hdg, hty, parent, hp, hd1, hd2⟩
    rw [get_by_id_add_deps] at hp
    rcases List.mem_append.mp hmem with hm | hm
    · exact ⟨dep, hm, hdg, hty, parent, hp, hd1, hd2⟩
    · rw [List.mem_singleton] at hm
      subst hm
      exact absurd hty h
  · rintro ⟨dep, hmem, hdg, hty, parent, hp, hd1, hd2⟩
    exact ⟨dep, List.mem_append_left _ hmem, hdg, hty, parent,
      by rw [get_by_id_add_deps]; exact hp, hd1, hd2⟩

theorem should_block_append_nonreq {s : Store} {e : GoalDependency} {n : Nat} {d : Nat}
    (h : e.dependency_type ≠ DependencyType.requires) :
    GoalRepository.should_block { s with deps := s.deps ++ [e], next_dep_id := n } d =
      GoalRepository.should_block s d := by
  by_cases hb : GoalRepository.should_block s d = true
  · rw [hb, should_block_iff]
    exact (shouldBlockSpec_append_nonreq h).mpr ((should_block_iff s d).mp hb)
  · have h1 : ¬ GoalRepository.should_block
        { s with deps := s.deps ++ [e], next_dep_id := n } d = true := fun hc =>
      hb ((should_block_iff s d).mpr
        ((shouldBlockSpec_append_nonreq h).mp ((should_block_iff _ d).mp hc)))
    rw [Bool.not_eq_true] at h1 hb
    rw [h1, hb]

theorem newStatus_eq_blocked_iff (sb : Bool) (st : GoalStatus) :
    newStatus sb st = GoalStatus.blocked ↔
      sb = true ∧ (st = GoalStatus.todo ∨ st = GoalStatus.blocked) := by
  cases sb <;> cases st <;> decide

theorem create_dependency_ok {s : Store} {p d : Nat} {t : DependencyType} {k : Int}
    {n : Option String} {s1 : Store} {e : GoalDependency}
    (hok : GoalRepository.create_dependency s p d t k n = Except.ok (s1, e)) :
    e = { id := s.next_dep_id, parent_goal_id := p, dependent_goal_id := d,
          dependency_type := t, strength := k, notes := n } ∧
    p ≠ d ∧ (1 ≤ k ∧ k ≤ 5) ∧
    (s.deps.any (fun dd => dd.parent_goal_id == p && dd.dependent_goal_id == d)) = false ∧
    s1 = GoalRepository.recalculate_goal_status_after_dependency_change
      { s with deps := s.deps ++ [e], next_dep_id := s.next_dep_id + 1 } d := by
  simp only [GoalRepository.create_dependency] at hok
  split_ifs at hok with h1 h2 h3
  injection hok with hok
  rw [Prod.mk.injEq] at hok
  obtain ⟨hs1, he⟩ := hok
  subst he
  exact ⟨rfl, h1, h2, by simpa using h3, hs1.symm⟩

/-- C3: every successful create_dependency recomputes the dependent goal
status immediately after the edge is inserted, for every dependency_type
(the new status follows the transition table over the post-insert store);
yet only requires edges can cause blocking: after inserting an edge of any
other type, the dependent is blocked iff the requires edges it already had
would block it, independent of the new edge — while inserting a requires
edge on an unfinished parent does block a todo dependent. -/
theorem claim_create_dependency_recompute (s : Store) (p d : Nat) (t : DependencyType)
    (k : Int) (n : Option String) (s1 : Store) (e : GoalDependency)
    (hok : GoalRepository.create_dependency s p d t k n = Except.ok (s1, e)) :
    (∀ g, GoalRepository.get_by_id s d = some g →
      statusOf s1 d = some (newStatus
        (GoalRepository.should_block
          { s with deps := s.deps ++ [e], next_dep_id := s.next_dep_id + 1 } d)
        g.status)) ∧
    (t ≠ DependencyType.requires →
      (statusOf s1 d = some GoalStatus.blocked ↔
        GoalRepository.should_block s d = true ∧
          (statusOf s d = some GoalStatus.todo ∨ statusOf s d = some GoalStatus.blocked))) ∧
    (t = DependencyType.requires → ∀ g q, GoalRepository.get_by_id s d = some g →
      g.status = GoalStatus.todo → GoalRepository.get_by_id s p = some q →
      q.status ≠ GoalStatus.done → q.status ≠ GoalStatus.canceled →
      statusOf s1 d = some GoalStatus.blocked) := by
  obtain ⟨he, hpd, hk, hnodup, hs1⟩ := create_dependency_ok hok
  have hety : e.dependency_type = t := by rw [he]
  have hedep : e.dependent_goal_id = d := by rw [he]
  refine ⟨?_, ?_, ?_⟩
  · intro g hg
    rw [hs1]
    exact statusOf_recalc_self (by rw [get_by_id_add_deps]; exact hg)
  · intro ht
    have hnr : e.dependency_type ≠ DependencyType.requires := by rw [hety]; exact ht
    cases hg : GoalRepository.get_by_id s d with
    | none =>
      have hg2 : GoalRepository.get_by_id
          { s with deps := s.deps ++ [e], next_dep_id := s.next_dep_id + 1 } d = none := by
        rw [get_by_id_add_deps]; exact hg
      rw [hs1, recalc_absent hg2]
      unfold statusOf
      rw [hg2, hg]
      simp
    | some g =>
      have hg2 : GoalRepository.get_by_id
          { s with deps := s.deps ++ [e], next_dep_id := s.next_dep_id + 1 } d = some g := by
        rw [get_by_id_add_deps]; exact hg
      have hstat : statusOf s d = some g.status := by
        unfold statusOf; rw [hg]; rfl
      rw [hs1, statusOf_recalc_self hg2, should_block_append_nonreq hnr, hstat]
      rw [Option.some.injEq, Option.some.injEq, Option.some.injEq]
      rw [newStatus_eq_blocked_iff]
  · intro ht g q hg hgt hq hq1 hq2
    have hg2 : GoalRepository.get_by_id
        { s with deps := s.deps ++ [e], next_dep_id := s.next_dep_id + 1 } d = some g := by
      rw [get_by_id_add_deps]; exact hg
    have hsb : GoalRepository.should_block
        { s with deps := s.deps ++ [e], next_dep_id := s.next_dep_id + 1 } d = true := by
      rw [should_block_iff]
      have hepar : e.parent_goal_id = p := by rw [he]
      refine ⟨e, List.mem_append_right _ (List.mem_singleton.mpr rfl), hedep, ?_, q, ?_, hq1, hq2⟩
      · rw [hety, ht]
      · rw [get_by_id_add_deps, hepar]; exact hq
    rw [hs1, statusOf_recalc_self hg2, hsb, hgt]
    rfl

theorem claim_create_dependency_recompute_witness :
    ¬ statusOf (GoalRepository.recalculate_goal_status_after_dependency_change
        { storeTwoTodo with
          deps := storeTwoTodo.deps ++
            [{ id := 1, parent_goal_id := 1, dependent_goal_id := 2,
               dependency_type := DependencyType.related, strength := 2, notes := none }],
          next_dep_id := 2 } 2) 2 = some GoalStatus.blocked := by
  have h := (claim_create_dependency_recompute storeTwoTodo 1 2 DependencyType.related 2 none
    _ _ rfl).2.1 (by decide)
  exact fun hc =>
    (by decide : ¬(GoalRepository.should_block storeTwoTodo 2 = true ∧
      (statusOf storeTwoTodo 2 = some GoalStatus.todo ∨
        statusOf storeTwoTodo 2 = some GoalStatus.blocked))) (h.mp hc)

theorem shouldBlockSpec_update_todo {s : Store} {goal_id : Nat}
    (h : ShouldBlockSpec s goal_id) :
    ShouldBlockSpec (GoalRepository.update_goal s goal_id GoalStatus.todo) goal_id := by
  obtain ⟨dep, hmem, hdg, hty, parent, hp, hd1, hd2⟩ := h
  refine ⟨dep, hmem, hdg, hty, ?_⟩
  rw [get_by_id_update_goal, hp]
  by_cases hpid : parent.id = goal_id
  · refine ⟨{ parent with status := GoalStatus.todo }, ?_, ?_, ?_⟩
    · simp [GoalRepository.updFn, hpid]
    · intro hc; exact GoalStatus.noConfusion hc
    · intro hc; exact GoalStatus.noConfusion hc
  · refine ⟨parent, ?_, hd1, hd2⟩
    simp [GoalRepository.updFn, hpid]

/-- C4: for a goal with at least one requires dependency on an unfinished
parent, forcing status todo through the update_goal_status tool persists
status blocked by the end of the same call, while the returned mapping still
reports status todo and a success message claiming the update to todo. -/
theorem claim_forced_todo_override (s : Store) (user_id goal_id : Nat) (g : Goal)
    (hg : GoalRepository.get_by_id s goal_id = some g)
    (hown : g.user_id = user_id)
    (hblk : ShouldBlockSpec s goal_id) :
    statusOf (GoalTools.update_goal_status s user_id goal_id "todo").1 goal_id =
      some GoalStatus.blocked ∧
    (GoalTools.update_goal_status s user_id goal_id "todo").2 =
      ToolResult.ok
        [("goal_id", toString goal_id), ("title", g.title), ("status", "todo"),
         ("success_message", "Updated goal " ++ g.title ++ " status to todo")] := by
  have hid := get_by_id_some_id hg
  have htool : GoalTools.update_goal_status s user_id goal_id "todo" =
      (GoalRepository.recalculate_goal_status_after_dependency_change
        (GoalRepository.update_goal s goal_id GoalStatus.todo) goal_id,
       ToolResult.ok
         [("goal_id", toString goal_id), ("title", g.title), ("status", "todo"),
          ("success_message", "Updated goal " ++ g.title ++ " status to " ++ "todo")]) := by
    simp only [GoalTools.update_goal_status, hg]
    rw [if_neg (fun hc => hc hown), hid]
    rfl
  constructor
  · rw [htool]
    have hg1 : GoalRepository.get_by_id
        (GoalRepository.update_goal s goal_id GoalStatus.todo) goal_id =
        some { g with status := GoalStatus.todo } := get_by_id_update_self hg GoalStatus.todo
    have hsb1 : GoalRepository.should_block
        (GoalRepository.update_goal s goal_id GoalStatus.todo) goal_id = true :=
      (should_block_iff _ _).mpr (shouldBlockSpec_update_todo hblk)
    rw [statusOf_recalc_self hg1, hsb1]
    rfl
  · rw [htool, String.append_assoc]
    rfl

theorem claim_forced_todo_override_witness :
    statusOf (GoalTools.update_goal_status storeReqBlocked 1 2 "todo").1 2 =
      some GoalStatus.blocked ∧
    (GoalTools.update_goal_status storeReqBlocked 1 2 "todo").2 =
      ToolResult.ok
        [("goal_id", "2"), ("title", "Build project"), ("status", "todo"),
         ("success_message", "Updated goal Build project status to todo")] := by
  have h := claim_forced_todo_override storeReqBlocked 1 2
    { id := 2, user_id := 1, title := "Build project", status := GoalStatus.blocked }
    rfl rfl
    ⟨{ id := 7, parent_goal_id := 1, dependent_goal_id := 2,
       dependency_type := DependencyType.requires, strength := 1, notes := none },
      List.mem_cons_self _ _, rfl, rfl,
      { id := 1, user_id := 1, title := "Learn Python", status := GoalStatus.todo },
      rfl, by decide, by decide⟩
  exact ⟨h.1, h.2⟩

theorem deps_add (s : Store) (l : List GoalDependency) (n : Nat) :
    ({ s with deps := l, next_dep_id := n } : Store).deps = l := rfl

theorem clamp_bounds (k : Int) : 1 ≤ max 1 (min 5 k) ∧ max 1 (min 5 k) ≤ 5 := by
  constructor <;> omega

theorem created_dependency_msg_requires (a b : String) :
    "Created dependency: " ++ a ++ " " ++ "requires" ++ " " ++ b =
      "Created dependency: " ++ a ++ " requires " ++ b := by
  rw [show "Created dependency: " ++ a ++ " " ++ "requires" =
    "Created dependency: " ++ a ++ (" " ++ "requires") from String.append_assoc _ _ _,
    show "Created dependency: " ++ a ++ (" " ++ "requires") ++ " " =
      "Created dependency: " ++ a ++ ((" " ++ "requires") ++ " ") from
        String.append_assoc _ _ _]
  rfl

theorem create_goal_dependency_tool_ok {s : Store} {user_id p d : Nat} {gp gd : Goal}
    {ts : String} {te : DependencyType} {k : Int}
    (hts : DependencyType.ofString? ts = some te)
    (hp : GoalRepository.get_by_id s p = some gp) (hpo : gp.user_id = user_id)
    (hd : GoalRepository.get_by_id s d = some gd) (hdo : gd.user_id = user_id)
    (hpd : p ≠ d)
    (hnodup : (s.deps.any
      (fun dd => dd.parent_goal_id == p && dd.dependent_goal_id == d)) = false) :
    GoalTools.create_goal_dependency s user_id p d ts k =
      (GoalRepository.recalculate_goal_status_after_dependency_change
        { s with
          deps := s.deps ++
            [{ id := s.next_dep_id, parent_goal_id := p, dependent_goal_id := d,
               dependency_type := te, strength := max 1 (min 5 k), notes := none }],
          next_dep_id := s.next_dep_id + 1 } d,
       ToolResult.ok
         [("dependency_id", toString s.next_dep_id),
          ("parent_goal_id", toString p),
          ("parent_goal_title", gp.title),
          ("dependent_goal_id", toString d),
          ("dependent_goal_title", gd.title),
          ("dependency_type", ts),
          ("strength", toString (max 1 (min 5 k))),
          ("success_message", "Created dependency: " ++ gd.title ++ " " ++ ts ++ " " ++
            gp.title)]) := by
  simp only [GoalTools.create_goal_dependency, GoalRepository.create_dependency, hts, hp, hd]
  rw [if_neg (fun hc => hc hpo), if_neg (fun hc => hc hdo), if_neg hpd,
    if_neg (show ¬¬(1 ≤ max 1 (min 5 k) ∧ max 1 (min 5 k) ≤ 5) from
      fun hc => hc (clamp_bounds k)),
    if_neg (show ¬((s.deps.any
        (fun dd => dd.parent_goal_id == p && dd.dependent_goal_id == d)) = true) from by
      rw [hnodup]; exact Bool.false_ne_true)]

theorem create_goal_dependency_tool_dup {s : Store} {user_id p d : Nat} {gp gd : Goal}
    {ts : String} {te : DependencyType} {k : Int}
    (hts : DependencyType.ofString? ts = some te)
    (hp : GoalRepository.get_by_id s p = some gp) (hpo : gp.user_id = user_id)
    (hd : GoalRepository.get_by_id s d = some gd) (hdo : gd.user_id = user_id)
    (hpd : p ≠ d)
    (hdup : (s.deps.any
      (fun dd => dd.parent_goal_id == p && dd.dependent_goal_id == d)) = true) :
    GoalTools.create_goal_dependency s user_id p d ts k =
      (s, ToolResult.error ("Failed to create goal dependency: " ++
        GoalRepository.uniqueDependencyMsg)) := by
  simp only [GoalTools.create_goal_dependency, GoalRepository.create_dependency, hts, hp, hd]
  rw [if_neg (fun hc => hc hpo), if_neg (fun hc => hc hdo), if_neg hpd,
    if_neg (show ¬¬(1 ≤ max 1 (min 5 k) ∧ max 1 (min 5 k) ≤ 5) from
      fun hc => hc (clamp_bounds k)),
    if_pos hdup]

theorem create_goal_dependency_tool_self {s : Store} {user_id p : Nat} {gp : Goal}
    {ts : String} {te : DependencyType} {k : Int}
    (hts : DependencyType.ofString? ts = some te)
    (hp : GoalRepository.get_by_id s p = some gp) (hpo : gp.user_id = user_id) :
    GoalTools.create_goal_dependency s user_id p p ts k =
      (s, ToolResult.error ("Failed to create goal dependency: " ++
        GoalRepository.selfDependencyMsg)) := by
  simp only [GoalTools.create_goal_dependency, GoalRepository.create_dependency, hts, hp]
  rw [if_neg (fun hc => hc hpo), if_neg (fun hc => hc hpo)]
  rfl

/-- C5: creating a self-dependency is rejected by the constraint as a
structured error with the store unchanged; creating the same ordered pair a
second time succeeds the first time (the edge is persisted) and is rejected
the second time with the store, including the first edge, unchanged. -/
theorem claim_dependency_constraints (s : Store) (user_id p d : Nat) (gp gd : Goal)
    (k k2 : Int)
    (hp : GoalRepository.get_by_id s p = some gp) (hpo : gp.user_id = user_id)
    (hd : GoalRepository.get_by_id s d = some gd) (hdo : gd.user_id = user_id) :
    (GoalTools.create_goal_dependency s user_id p p "requires" k =
      (s, ToolResult.error ("Failed to create goal dependency: " ++
        GoalRepository.selfDependencyMsg))) ∧
    (p ≠ d →
      (s.deps.any (fun dd => dd.parent_goal_id == p && dd.dependent_goal_id == d)) = false →
      (GoalTools.create_goal_dependency s user_id p d "requires" k).2 =
        ToolResult.ok
          [("dependency_id", toString s.next_dep_id),
           ("parent_goal_id", toString p),
           ("parent_goal_title", gp.title),
           ("dependent_goal_id", toString d),
           ("dependent_goal_title", gd.title),
           ("dependency_type", "requires"),
           ("strength", toString (max 1 (min 5 k))),
           ("success_message", "Created dependency: " ++ gd.title ++ " requires " ++
             gp.title)] ∧
      ((GoalTools.create_goal_dependency s user_id p d "requires" k).1.deps.any
        (fun dd => dd.parent_goal_id == p && dd.dependent_goal_id == d)) = true ∧
      GoalTools.create_goal_dependency
          (GoalTools.create_goal_dependency s user_id p d "requires" k).1 user_id p d
          "requires" k2 =
        ((GoalTools.create_goal_dependency s user_id p d "requires" k).1,
         ToolResult.error ("Failed to create goal dependency: " ++
           GoalRepository.uniqueDependencyMsg))) := by
  constructor
  · exact create_goal_dependency_tool_self rfl hp hpo
  · intro hpd hnodup
    have h1 := @create_goal_dependency_tool_ok s user_id p d gp gd "requires"
      DependencyType.requires k rfl hp hpo hd hdo hpd hnodup
    rw [h1, created_dependency_msg_requires]
    refine ⟨rfl, ?_, ?_⟩
    · rw [recalc_deps, deps_add, List.any_append, hnodup]
      simp
    · have hdup : ((GoalRepository.recalculate_goal_status_after_dependency_change
          { s with
            deps := s.deps ++
              [{ id := s.next_dep_id, parent_goal_id := p, dependent_goal_id := d,
                 dependency_type := DependencyType.requires,
                 strength := max 1 (min 5 k), notes := none }],
            next_dep_id := s.next_dep_id + 1 } d).deps.any
          (fun dd => dd.parent_goal_id == p && dd.dependent_goal_id == d)) = true := by
        rw [recalc_deps, deps_add, List.any_append, hnodup]
        simp
      have hps : GoalRepository.get_by_id
          { s with
            deps := s.deps ++
              [{ id := s.next_dep_id, parent_goal_id := p, dependent_goal_id := d,
                 dependency_type := DependencyType.requires,
                 strength := max 1 (min 5 k), notes := none }],
            next_dep_id := s.next_dep_id + 1 } p = some gp := by
        rw [get_by_id_add_deps]; exact hp
      have hds : GoalRepository.get_by_id
          { s with
            deps := s.deps ++
              [{ id := s.next_dep_id, parent_goal_id := p, dependent_goal_id := d,
                 dependency_type := DependencyType.requires,
                 strength := max 1 (min 5 k), notes := none }],
            next_dep_id := s.next_dep_id + 1 } d = some gd := by
        rw [get_by_id_add_deps]; exact hd
      obtain ⟨gp2, hp2, _, hpu2, _⟩ := @get_by_id_recalc_shape _ d _ _ hps
      obtain ⟨gd2, hd2, _, hdu2, _⟩ := @get_by_id_recalc_shape _ d _ _ hds
      exact create_goal_dependency_tool_dup
        (show DependencyType.ofString? "requires" = some DependencyType.requires from rfl)
        hp2 (by rw [hpu2]; exact hpo) hd2 (by rw [hdu2]; exact hdo) hpd hdup

theorem claim_dependency_constraints_witness :
    (GoalTools.create_goal_dependency storeTwoTodo 1 1 1 "requires" 1 =
      (storeTwoTodo, ToolResult.error ("Failed to create goal dependency: " ++
        GoalRepository.selfDependencyMsg))) ∧
    GoalTools.create_goal_dependency
        (GoalTools.create_goal_dependency storeTwoTodo 1 1 2 "requires" 1).1 1 1 2
        "requires" 3 =
      ((GoalTools.create_goal_dependency storeTwoTodo 1 1 2 "requires" 1).1,
       ToolResult.error ("Failed to create goal dependency: " ++
         GoalRepository.uniqueDependencyMsg)) ∧
    ((GoalTools.create_goal_dependency storeTwoTodo 1 1 2 "requires" 1).1.deps.any
      (fun dd => dd.parent_goal_id == 1 && dd.dependent_goal_id == 2)) = true := by
  have h := claim_dependency_constraints storeTwoTodo 1 1 2
    { id := 1, user_id := 1, title := "Learn Python", status := GoalStatus.todo }
    { id := 2, user_id := 1, title := "Build project", status := GoalStatus.todo }
    1 3 rfl rfl rfl rfl
  obtain ⟨h1, h2⟩ := h
  obtain ⟨ha, hb, hc⟩ := h2 (by decide) rfl
  exact ⟨h1, hc, hb⟩

/-- C6 counterexample: with two owned goals and strength 7 (outside [1, 5]),
the create_goal_dependency tool does not report an error: it clamps the
strength to 5, persists the edge, and returns a success mapping, refuting
the claimed structured error with no mutation. -/
theorem claim_strength_clamp_counterexample :
    (GoalTools.create_goal_dependency storeTwoTodo 1 1 2 "requires" 7).2 =
      ToolResult.ok
        [("dependency_id", "1"), ("parent_goal_id", "1"),
         ("parent_goal_title", "Learn Python"), ("dependent_goal_id", "2"),
         ("dependent_goal_title", "Build project"), ("dependency_type", "requires"),
         ("strength", "5"),
         ("success_message", "Created dependency: Build project requires Learn Python")] ∧
    (GoalTools.create_goal_dependency storeTwoTodo 1 1 2 "requires" 7).1.deps =
      [{ id := 1, parent_goal_id := 1, dependent_goal_id := 2,
         dependency_type := DependencyType.requires, strength := 5, notes := none }] :=
  ⟨rfl, rfl⟩

/-- C6 (amended): a strength outside [1, 5] is not rejected: the tool clamps
it into the range (to max 1 (min 5 strength)) and, with a valid type and
owned distinct goals and no existing edge, the creation succeeds, persisting
the clamped strength and returning a success mapping that reports it. -/
theorem claim_strength_clamp_amended (s : Store) (user_id p d : Nat) (gp gd : Goal)
    (k : Int)
    (hp : GoalRepository.get_by_id s p = some gp) (hpo : gp.user_id = user_id)
    (hd : GoalRepository.get_by_id s d = some gd) (hdo : gd.user_id = user_id)
    (hpd : p ≠ d)
    (hnodup : (s.deps.any
      (fun dd => dd.parent_goal_id == p && dd.dependent_goal_id == d)) = false)
    (_hout : ¬(1 ≤ k ∧ k ≤ 5)) :
    (GoalTools.create_goal_dependency s user_id p d "requires" k).2 =
      ToolResult.ok
        [("dependency_id", toString s.next_dep_id),
         ("parent_goal_id", toString p),
         ("parent_goal_title", gp.title),
         ("dependent_goal_id", toString d),
         ("dependent_goal_title", gd.title),
         ("dependency_type", "requires"),
         ("strength", toString (max 1 (min 5 k))),
         ("success_message", "Created dependency: " ++ gd.title ++ " requires " ++
           gp.title)] ∧
    ((GoalTools.create_goal_dependency s user_id p d "requires" k).1.deps.any
      (fun dd => dd.parent_goal_id == p && dd.dependent_goal_id == d &&
        (dd.strength == max 1 (min 5 k)))) = true := by
  have h1 := @create_goal_dependency_tool_ok s user_id p d gp gd "requires"
    DependencyType.requires k rfl hp hpo hd hdo hpd hnodup
  rw [h1, created_dependency_msg_requires]
  refine ⟨rfl, ?_⟩
  rw [recalc_deps, deps_add, List.any_append]
  simp

theorem claim_strength_clamp_amended_witness :
    ((GoalTools.create_goal_dependency storeTwoTodo 1 1 2 "requires" 7).1.deps.any
      (fun dd => dd.parent_goal_id == 1 && dd.dependent_goal_id == 2 &&
        (dd.strength == max 1 (min 5 7)))) = true :=
  (claim_strength_clamp_amended storeTwoTodo 1 1 2
    { id := 1, user_id := 1, title := "Learn Python", status := GoalStatus.todo }
    { id := 2, user_id := 1, title := "Build project", status := GoalStatus.todo }
    7 rfl rfl rfl rfl (by decide) rfl (by decide)).2

/-- C7: process_function_calls with one call to an unregistered name followed
by one call to a registered tool returns exactly two outcomes in order — the
unknown-function error for the first and the registered callable applied to
the initial state for the second — so the valid call is executed, not
skipped. -/
theorem claim_dispatch_isolation (reg : LLMToolRegistry) (s : Store)
    (name1 name2 : String) (f : ToolFn) (a1 a2 : ArgMap)
    (h1 : reg.lookup name1 = none) (h2 : reg.lookup name2 = some f) :
    reg.process_function_calls s
        [{ name := name1, arguments := CallArguments.parsed a1 },
         { name := name2, arguments := CallArguments.parsed a2 }] =
      ((f a2 s).1,
       [CallOutcome.result name1 (ToolResult.error ("Unknown function: " ++ name1)),
        CallOutcome.result name2 (f a2 s).2]) := by
  simp only [LLMToolRegistry.process_function_calls, List.foldl_cons, List.foldl_nil,
    LLMToolRegistry.call_function, h1, h2, List.nil_append, List.append_assoc,
    List.singleton_append]

theorem claim_dispatch_isolation_witness :
    exampleRegistry.process_function_calls storeTwoTodo
        [{ name := "nonexistent_tool", arguments := CallArguments.parsed [] },
         { name := "update_goal_status",
           arguments := CallArguments.parsed
             [("goal_id", ArgValue.int 1), ("status", ArgValue.str "done")] }] =
      ({ goals := [{ id := 1, user_id := 1, title := "Learn Python",
                     status := GoalStatus.done },
                   { id := 2, user_id := 1, title := "Build project",
                     status := GoalStatus.todo }],
         deps := [], next_dep_id := 1 },
       [CallOutcome.result "nonexistent_tool"
          (ToolResult.error "Unknown function: nonexistent_tool"),
        CallOutcome.result "update_goal_status"
          (ToolResult.ok
            [("goal_id", "1"), ("title", "Learn Python"), ("status", "done"),
             ("success_message", "Updated goal Learn Python status to completed")])]) :=
  claim_dispatch_isolation exampleRegistry storeTwoTodo "nonexistent_tool"
    "update_goal_status" (update_goal_status_bound 1) []
    [("goal_id", ArgValue.int 1), ("status", ArgValue.str "done")] rfl rfl

theorem process_fold_length (reg : LLMToolRegistry) (calls : List FunctionCall) :
    ∀ acc : Store × List CallOutcome,
      ((calls.foldl
        (fun acc call =>
          match call.arguments with
          | CallArguments.rawJson none =>
            (acc.1, acc.2 ++ [CallOutcome.invalid_json_arguments call.name])
          | CallArguments.rawJson (some arguments) =>
            let r := reg.call_function acc.1 call.name arguments
            (r.1, acc.2 ++ [CallOutcome.result call.name r.2])
          | CallArguments.parsed arguments =>
            let r := reg.call_function acc.1 call.name arguments
            (r.1, acc.2 ++ [CallOutcome.result call.name r.2]))
        acc).2).length = acc.2.length + calls.length := by
  induction calls with
  | nil => intro acc; simp
  | cons c cs ih =>
    intro acc
    rw [List.foldl_cons, ih]
    cases harg : c.arguments with
    | parsed a =>
      simp only [harg, List.length_append, List.length_cons, List.length_nil]
      omega
    | rawJson o =>
      cases o <;>
        · simp only [harg, List.length_append, List.length_cons, List.length_nil]
          omega

theorem process_function_calls_length (reg : LLMToolRegistry) (s : Store)
    (calls : List FunctionCall) :
    (reg.process_function_calls s calls).2.length = calls.length := by
  unfold LLMToolRegistry.process_function_calls
  rw [process_fold_length]
  simp

/-- C8: for every behaviour of the underlying LLM client,
generate_response returns a well-formed result (success, or the synthetic
apology content with error status) and never propagates an exception; in
particular a raising first tool-bearing call or a raising follow-up call
each yield exactly the synthetic error response. -/
theorem claim_orchestrator_never_raises (client : LLMClient) (reg : LLMToolRegistry)
    (json_loads : String → Option ToolResult) (s : Store)
    (messages : List ChatMessage) (user_message : String) :
    (((generate_response client reg json_loads s messages user_message).2.status =
        "success" ∧
      (generate_response client reg json_loads s messages user_message).2.error =
        none) ∨
    ((generate_response client reg json_loads s messages user_message).2.status =
        "error" ∧
      (generate_response client reg json_loads s messages user_message).2.content =
        ERROR_CONTENT)) ∧
    (∀ e, client.has_generate_with_tools = true →
      client.generate_with_tools (build_enhanced_context messages user_message)
          reg.get_tool_schemas = Except.error e →
      (generate_response client reg json_loads s messages user_message).2 =
        { content := ERROR_CONTENT, tool_calls := [], tool_results := [],
          status := "error", error := some e }) ∧
    (∀ resp e2, client.has_generate_with_tools = true →
      client.generate_with_tools (build_enhanced_context messages user_message)
          reg.get_tool_schemas = Except.ok resp →
      resp.tool_calls ≠ [] →
      client.generate (followup_context_of reg
          (build_enhanced_context messages user_message) s resp) = Except.error e2 →
      (generate_response client reg json_loads s messages user_message).2 =
        { content := ERROR_CONTENT, tool_calls := [], tool_results := [],
          status := "error", error := some e2 }) := by
  refine ⟨?_, ?_, ?_⟩
  · simp only [generate_response]
    cases hstep : (if client.has_generate_with_tools then
        generate_with_tools_step client reg
          (build_enhanced_context messages user_message) s
      else generate_with_analysis_step client json_loads
        (build_enhanced_context messages user_message) s).2 with
    | error e =>
      right
      exact ⟨rfl, rfl⟩
    | ok g =>
      left
      exact ⟨rfl, rfl⟩
  · intro e hhas herr
    simp only [generate_response, hhas, if_true, generate_with_tools_step, herr]
  · intro resp e2 hhas hok hcalls herr2
    simp only [generate_response, hhas, if_true, generate_with_tools_step, hok]
    rw [if_neg (by simpa using hcalls)]
    have hne : ¬((reg.process_function_calls s resp.tool_calls).2.isEmpty = true) := by
      intro hemp
      rw [List.isEmpty_iff] at hemp
      have hlen := process_function_calls_length reg s resp.tool_calls
      rw [hemp] at hlen
      simp only [List.length_nil] at hlen
      exact hcalls (List.eq_nil_of_length_eq_zero hlen.symm)
    rw [if_neg hne]
    simp only [herr2]

theorem claim_orchestrator_never_raises_witness :
    (generate_response raisingClient emptyRegistry noSuggestionsParse storeTwoTodo []
        "hello").2 =
      { content := ERROR_CONTENT, tool_calls := [], tool_results := [],
        status := "error", error := some "OpenAI API connection error" } :=
  (claim_orchestrator_never_raises raisingClient emptyRegistry noSuggestionsParse
    storeTwoTodo [] "hello").2.1 "OpenAI API connection error" rfl rfl

end Aimi
